import Mathlib

/-
Verification development for the ecph5 repository (src/ecph5/ECPBuilder.py).

The embedding below translates the ECPBuilder class into Lean. Conventions:

* python floats are modelled as exact rationals.  The only irrational
  quantities the source produces are Euclidean norms (np.linalg.norm with
  axis=1); the model represents each such norm by its square (sqDist).
  Squaring is strictly monotone on the nonnegative reals, so every argsort,
  every comparison and every border extremum computed over these scores
  coincides with the ones the source computes over the true norms.  No
  theorem in this file depends on the magnitude of an L2 score, only on
  orderings and on control flow.
* the cosine-similarity routine is an external library call
  (sklearn.metrics.pairwise.cosine_similarity); the spec explicitly treats
  it as a pluggable distance function, so the model carries it as a
  function field (cos_sim) of the builder.
* hdf5 persistence, logging and tqdm progress bars are external
  collaborators and do not affect in-memory control flow; they are omitted
  (each omission is noted where it occurs).
* a python call can return a value, fall off the end of the function
  (returning None), or raise; the type Ret captures the three outcomes and
  M := Except PyErr captures functions that never return None.
* string keys lvl_i / node_j are modelled by the pair of natural numbers
  (i, j); the f-string encoding of the source is a bijection, so nothing
  is lost.
-/

namespace ECP

/-- Kinds of python exception that the modelled code can raise.  outOfFuel is
a model artifact: the python while loops carry no termination proof, so the
model recurses on explicit fuel; no theorem below depends on a fuel-exhausted
branch. -/
inductive PyErr
  | valueError
  | typeError
  | keyError
  | indexError
  | axisError
  | attributeError
  | unboundLocalError
  | notImplementedError
  | zeroDivisionError
  | outOfFuel
deriving DecidableEq

/-- Outcome of a python function call: an explicit return value, an implicit
None return (falling off the end of the function body), or a raised
exception. -/
inductive Ret (α : Type)
  | val (a : α)
  | noneRet
  | exn (e : PyErr)

/-- Monad for modelled python code that always returns a value or raises. -/
abbrev M (α : Type) := Except PyErr α

/-- Materialise an optional lookup, raising the given error when absent. -/
def liftOpt (o : Option α) (e : PyErr) : M α :=
  match o with
  | some a => Except.ok a
  | none => Except.error e

/-- Tuple-unpack the result of a call: unpacking None raises TypeError. -/
def unpackRet (r : Ret α) : M α :=
  match r with
  | Ret.val a => Except.ok a
  | Ret.noneRet => Except.error PyErr.typeError
  | Ret.exn e => Except.error e

/-- The metric chosen at construction time (the source stores the strings
IP, L2 and cos; the claims range over exactly these three). -/
inductive Metric
  | IP
  | L2
  | cos
deriving DecidableEq

/-- An embedding vector (one row of a numpy 2-D array). -/
abbrev Vec := List ℚ

/-- Dot product of two vectors (np.dot of a row with the query). -/
def dot (a b : Vec) : ℚ :=
  (List.zipWith (fun x y => x * y) a b).sum

/-- Squared Euclidean distance between two vectors.  This is the model of
one entry of np.linalg.norm(references - query, axis=1); see the header
note on representing a norm by its square. -/
def sqDist (a b : Vec) : ℚ :=
  ((List.zipWith (fun x y => x - y) a b).map (fun x => x * x)).sum

/-- Comparison of two positions of a score list: by value, ties by index.
This matches a stable argsort; np.argsort with the default sort kind agrees
with it whenever the values are distinct, and every concrete input used in
a theorem below has distinct values. -/
def idxLE (xs : List ℚ) (i j : ℕ) : Bool :=
  let a := xs.getD i 0
  let b := xs.getD j 0
  decide (a < b) || (decide (a = b) && decide (i ≤ j))

/-- Insert an index into an index list kept sorted by idxLE. -/
def insertIdx (xs : List ℚ) (i : ℕ) : List ℕ → List ℕ
  | [] => [i]
  | j :: js => if idxLE xs i j then i :: j :: js else j :: insertIdx xs i js

/-- Model of np.argsort over a score list: the indices 0 .. len-1 sorted
ascending by value (ties by index). -/
def argsortAsc (xs : List ℚ) : List ℕ :=
  (List.range xs.length).foldr (insertIdx xs) []

/-- Model of np.argsort(..)[::-1]: the ascending argsort reversed. -/
def argsortDesc (xs : List ℚ) : List ℕ :=
  (argsortAsc xs).reverse

/-- Insert a value into a value list kept sorted ascending. -/
def insertQ (x : ℚ) : List ℚ → List ℚ
  | [] => [x]
  | y :: ys => if decide (x ≤ y) then x :: y :: ys else y :: insertQ x ys

/-- Model of np.sort: the values sorted ascending. -/
def npSort (xs : List ℚ) : List ℚ :=
  xs.foldr insertQ []

/-- One node of the index hierarchy: the per-node dict created by
build_tree_h5 with keys embeddings, item_ids, node_ids, distances and
border.  The border index is an integer because the freshly allocated
border is (-1, 1.0). -/
structure Node where
  embeddings : List Vec
  item_ids : List ℕ
  node_ids : List ℕ
  distances : List ℚ
  border : ℤ × ℚ

/-- The root entry of the index dict: item_ids and embeddings only. -/
structure RootNode where
  item_ids : List ℕ
  embeddings : List Vec

/-- The whole index dict: the root entry plus one list of nodes per level.
lvls.get? i models the group lvl_i and position j within it models
node_j. -/
structure Index where
  root : RootNode
  lvls : List (List Node)

/-- Frontier entry of search_tree: the tuple (distance, is_leaf, level,
node); python orders these tuples lexicographically with False < True. -/
abbrev TreeEntry := ℚ × Bool × ℕ × ℕ

/-- Result-queue entry of search_tree: the tuple (distance, item_id). -/
abbrev ItemEntry := ℚ × ℕ

/-- The ECPBuilder object.  Fields that python creates only later
(total_clusters, node_size, representative arrays, index, the two
priority queues) are Options: none models the attribute not existing yet,
and reading it then is an AttributeError (or, for the representative
arrays, the explicit None check of build_tree_h5).  cos_sim is the
pluggable cosine-similarity collaborator described in the header. -/
structure Builder where
  levels : ℕ
  target_cluster_size : ℕ
  metric : Metric
  cos_sim : Vec → Vec → ℚ
  representative_ids : Option (List ℕ)
  representative_embeddings : Option (List Vec)
  total_clusters : Option ℕ
  node_size : Option ℕ
  index : Option Index
  tree_pq : Option (List TreeEntry)
  item_pq : Option (List ItemEntry)

/-- Look the node node_n of level lvl_l up in the index dict. -/
def getNode (idx : Index) (l n : ℕ) : Option Node :=
  (idx.lvls.get? l).bind (fun lvl => lvl.get? n)

/-- Write the node node_n of level lvl_l back into the index dict. -/
def setNode (idx : Index) (l n : ℕ) (nd : Node) : Index :=
  { idx with lvls := idx.lvls.set l ((idx.lvls.getD l []).set n nd) }

/-- The border currently stored for node node_n of level lvl_l. -/
def borderAt (b : Builder) (l n : ℕ) : Option (ℤ × ℚ) :=
  b.index.bind (fun idx => (getNode idx l n).map Node.border)

/-- Model of ECPBuilder.distance_root_node (lines 137-159).  Every metric
branch assigns top and distances and the trailing return statement hands
both back.  L2 scores are represented by their squares (header note). -/
def distance_root_node (b : Builder) (emb : Vec) : Ret (List ℕ × List ℚ) :=
  match b.index with
  | none => Ret.exn PyErr.attributeError
  | some idx =>
    match b.metric with
    | Metric.IP =>
      let distances := idx.root.embeddings.map (fun r => dot r emb)
      Ret.val (argsortDesc distances, distances)
    | Metric.L2 =>
      let distances := idx.root.embeddings.map (fun r => sqDist r emb)
      Ret.val (argsortAsc distances, distances)
    | Metric.cos =>
      let distances := idx.root.embeddings.map (fun r => b.cos_sim r emb)
      Ret.val (argsortDesc distances, distances)

/-- Model of ECPBuilder.distance_level_node (lines 161-187).  The source
has its only return statement inside the cos branch:

* IP computes distances and top and then falls off the end of the
  function, returning None;
* L2 calls np.linalg.norm without axis, collapsing the difference matrix
  to a 0-dimensional scalar, and np.argsort of a 0-dimensional array
  raises an axis error before anything can be returned;
* cos returns (top, distances) normally. -/
def distance_level_node (b : Builder) (emb : Vec) (l n : ℕ) : Ret (List ℕ × List ℚ) :=
  match b.index with
  | none => Ret.exn PyErr.attributeError
  | some idx =>
    match getNode idx l n with
    | none => Ret.exn PyErr.keyError
    | some node =>
      match b.metric with
      | Metric.IP =>
        let distances := node.embeddings.map (fun r => dot r emb)
        let _top := argsortDesc distances
        Ret.noneRet
      | Metric.L2 =>
        let _frobeniusSq := (node.embeddings.map (fun r => sqDist r emb)).sum
        Ret.exn PyErr.axisError
      | Metric.cos =>
        let distances := node.embeddings.map (fun r => b.cos_sim r emb)
        Ret.val (argsortDesc distances, distances)

/-- Model of ECPBuilder.update_node_border_info (lines 206-224).  The source
argsorts the already sorted distance array (np.argsort(np.sort(..))) and
then indexes the original array with the first entry of that permutation:
the permutation is the identity, so the stored border is position 0 of the
raw array for IP and cos, and (after the [::-1] reversal) position len-1
for L2.  Indexing the first entry of an empty permutation raises. -/
def update_node_border_info (b : Builder) (l n : ℕ) : M Builder := do
  let idx ← liftOpt b.index PyErr.attributeError
  let node ← liftOpt (getNode idx l n) PyErr.keyError
  match b.metric with
  | Metric.IP | Metric.cos =>
    let new_border_dists := argsortAsc (npSort node.distances)
    let i ← liftOpt new_border_dists.head? PyErr.indexError
    let v ← liftOpt (node.distances.get? i) PyErr.indexError
    pure { b with index := some (setNode idx l n { node with border := ((i : ℤ), v) }) }
  | Metric.L2 =>
    let new_border_dists := (argsortAsc (npSort node.distances)).reverse
    let i ← liftOpt new_border_dists.head? PyErr.indexError
    let v ← liftOpt (node.distances.get? i) PyErr.indexError
    pure { b with index := some (setNode idx l n { node with border := ((i : ℤ), v) }) }

/-- Model of ECPBuilder.align_specific_node (lines 189-204): resize the
embedding and distance arrays of one node to the length of its item list
(np resize pads with zero rows when growing).  The border-recomputation
call in its body is commented out in the source, so the border is left
untouched here. -/
def align_specific_node (b : Builder) (lvl n : ℕ) : M Builder := do
  let idx ← liftOpt b.index PyErr.attributeError
  let node ← liftOpt (getNode idx lvl n) PyErr.keyError
  let m := node.item_ids.length
  let dim := ((node.embeddings.head?).map List.length).getD 0
  let node := { node with
    embeddings := node.embeddings.take m ++
      List.replicate (m - node.embeddings.length) (List.replicate dim (0 : ℚ)),
    distances := node.distances.take m ++ List.replicate (m - node.distances.length) (0 : ℚ) }
  pure { b with index := some (setNode idx lvl n node) }

/-- One node of the post-build align pass (body of the inner loop of
align_node_embeddings_and_distances, lines 235-245): the same resize as
align_specific_node followed, for a node with a nonempty item list, by the
border recomputation. -/
def alignAndBorder (b : Builder) (i j : ℕ) : M Builder := do
  let b ← align_specific_node b i j
  let idx ← liftOpt b.index PyErr.attributeError
  let node ← liftOpt (getNode idx i j) PyErr.keyError
  if node.item_ids.length > 0 then update_node_border_info b i j else pure b

/-- The level loop of align_node_embeddings_and_distances, carrying the
lvl_range counter exactly as the source does: process lvl_range nodes of
the current level, then set lvl_range to total_clusters when the next
level is the last one and multiply it by node_size otherwise. -/
def alignGo (ns tc levels : ℕ) : List ℕ → ℕ → Builder → M Builder
  | [], _, b => pure b
  | i :: is, lr, b => do
    let b ← (List.range lr).foldlM (fun b j => alignAndBorder b i j) b
    let lr' := if i + 1 = levels - 1 then tc else lr * ns
    alignGo ns tc levels is lr' b

/-- Model of ECPBuilder.align_node_embeddings_and_distances (lines
226-249). -/
def align_node_embeddings_and_distances (b : Builder) : M Builder :=
  match b.node_size, b.total_clusters with
  | some ns, some tc => alignGo ns tc b.levels (List.range b.levels) ns b
  | _, _ => Except.error PyErr.attributeError

/-- A freshly allocated node of build_tree_h5 (lines 317-329): node_size
zero rows for embeddings and distances, empty id lists, border (-1, 1.0). -/
def freshNode (ns dim : ℕ) : Node :=
  { embeddings := List.replicate ns (List.replicate dim (0 : ℚ))
    item_ids := []
    node_ids := []
    distances := List.replicate ns (0 : ℚ)
    border := (-1, 1) }

/-- The level-allocation loop of build_tree_h5 (lines 308-329): lvl_range
starts at 1 and per level is multiplied by node_size and capped at
total_clusters; each level gets that many fresh nodes. -/
def allocLoop (ns tc dim : ℕ) : ℕ → ℕ → List (List Node)
  | 0, _ => []
  | k + 1, lr =>
    let lr' := if lr * ns > tc then tc else lr * ns
    List.replicate lr' (freshNode ns dim) :: allocLoop ns tc dim k lr'

/-- The insertion into the level-l node reached by the descent (lines
349-395): grow the arrays by node_size rows when full, write the embedding
and the distance of the best-ranked previous comparison into slot next,
append the representative id and the flat cluster index, and update the
border inline (the border-is-None test of the source is never true because
the allocated border is (-1, 1.0), so only the comparison remains). -/
def insertAt (b : Builder) (curr_lvl n cl_idx : ℕ) (emb : Vec) (rids : List ℕ)
    (top : List ℕ) (distances : List ℚ) : M Builder := do
  let idx ← liftOpt b.index PyErr.attributeError
  let node ← liftOpt (getNode idx curr_lvl n) PyErr.keyError
  let next := node.item_ids.length
  let node ←
    if next ≥ node.embeddings.length then do
      let ns ← liftOpt b.node_size PyErr.attributeError
      let rembs ← liftOpt b.representative_embeddings PyErr.attributeError
      let dim := ((rembs.head?).map List.length).getD 0
      pure { node with
        embeddings := node.embeddings ++ List.replicate ns (List.replicate dim (0 : ℚ)),
        distances := node.distances ++ List.replicate ns (0 : ℚ) }
    else pure node
  let t0 ← liftOpt top.head? PyErr.indexError
  let bestd ← liftOpt (distances.get? t0) PyErr.indexError
  let rid ← liftOpt (rids.get? cl_idx) PyErr.indexError
  let node := { node with
    embeddings := node.embeddings.set next emb,
    item_ids := node.item_ids ++ [rid],
    node_ids := node.node_ids ++ [cl_idx],
    distances := node.distances.set next bestd }
  let node :=
    match b.metric with
    | Metric.IP | Metric.cos =>
      if node.border.2 > bestd then { node with border := ((next : ℤ), bestd) } else node
    | Metric.L2 =>
      if node.border.2 < bestd then { node with border := ((next : ℤ), bestd) } else node
  pure { b with index := some (setNode idx curr_lvl n node) }

/-- The descent loop of build_tree_h5 (while True, lines 345-399): at level
l insert, otherwise rank the children of the current node and follow the
node_ids pointer of the best-ranked child one level down.  The loop runs at
most l+1 times; the fuel argument makes the recursion structural. -/
def descendLoop (b : Builder) (l cl_idx : ℕ) (emb : Vec) (rids : List ℕ) :
    ℕ → ℕ → ℕ → List ℕ → List ℚ → M Builder
  | 0, _, _, _, _ => Except.error PyErr.outOfFuel
  | fuel + 1, curr_lvl, n, top, distances =>
    if curr_lvl = l then
      insertAt b curr_lvl n cl_idx emb rids top distances
    else do
      let (top', distances') ← unpackRet (distance_level_node b emb curr_lvl n)
      let idx ← liftOpt b.index PyErr.attributeError
      let node ← liftOpt (getNode idx curr_lvl n) PyErr.keyError
      let t0 ← liftOpt top'.head? PyErr.indexError
      let n' ← liftOpt (node.node_ids.get? t0) PyErr.indexError
      descendLoop b l cl_idx emb rids fuel (curr_lvl + 1) n' top' distances'

/-- Insertion of one representative during the top-down phase (lines
341-399): rank against the root, then descend from level 0 with the best
root child. -/
def insert_representative (b : Builder) (l cl_idx : ℕ) (emb : Vec) (rids : List ℕ) : M Builder := do
  let (top, distances) ← unpackRet (distance_root_node b emb)
  let n ← liftOpt top.head? PyErr.indexError
  descendLoop b l cl_idx emb rids (l + 1) 0 n top distances

/-- The level loop of the top-down insertion phase (lines 335-399): per
level, lvl_range is multiplied by node_size and capped at total_clusters,
and the first lvl_range representatives are inserted in selection order.
On an exception the builder state reached before the failing
representative is reported together with the error (python keeps partial
attribute mutations; the model tracks them at per-representative
granularity). -/
def buildInsertGo (rembs : List Vec) (rids : List ℕ) (tc ns : ℕ) :
    List ℕ → ℕ → Builder → Builder × Option PyErr
  | [], _, b => (b, none)
  | l :: ls, lr, b =>
    let lr' := if lr * ns > tc then tc else lr * ns
    match (rembs.take lr').enum.foldlM (fun b pe => insert_representative b l pe.1 pe.2 rids) b with
    | Except.ok b' => buildInsertGo rembs rids tc ns ls lr' b'
    | Except.error e => (b, some e)

/-- Model of ECPBuilder.build_tree_h5 (lines 251-452).  The nested helper
check_to_replace_border is defined but never called anywhere in the source
(dead code, flagged by the spec) and is not modelled.  The function first
checks that the representatives exist and raises ValueError otherwise,
before any tree state is touched; then it allocates the root and the empty
levels, runs the top-down insertion, and runs the align pass.  The final
save_to_file block only writes persistent storage and is omitted. -/
def build_tree_h5 (b : Builder) : Builder × Option PyErr :=
  if b.representative_embeddings.isNone || b.representative_ids.isNone then
    (b, some PyErr.valueError)
  else
    let rembs := b.representative_embeddings.getD []
    let rids := b.representative_ids.getD []
    match b.node_size, b.total_clusters with
    | some ns, some tc =>
      let dim := ((rembs.head?).map List.length).getD 0
      let root : RootNode := { item_ids := rids.take ns, embeddings := rembs.take ns }
      let b1 := { b with index := some { root := root, lvls := allocLoop ns tc dim b.levels 1 } }
      match buildInsertGo rembs rids tc ns (List.range (b.levels - 1)) ns b1 with
      | (b2, some e) => (b2, some e)
      | (b2, none) =>
        match align_node_embeddings_and_distances b2 with
        | Except.ok b3 => (b3, none)
        | Except.error e => (b2, some e)
    | _, _ =>
      ({ b with index := some { root := { item_ids := [], embeddings := [] }, lvls := [] } },
        some PyErr.attributeError)

/-- An assembled (item_id, distance, embedding) triple of the merge phase. -/
abbrev Triple := ℕ × ℚ × Vec

/-- A partial node map produced by one worker (determine_node_map): cluster
node index mapped to the ordered list of (item_id, distance) pairs.  The
source keys the dict by the string node_n; the model keys it by n. -/
abbrev NodeMap := List (ℕ × List (ℕ × ℚ))

/-- Python equality between the node-name string and one gathered triple,
as evaluated by the membership test node in cluster_items of line 676: a
str never equals a tuple, so the comparison is always False. -/
def pyStrEqTriple (_n : ℕ) (_t : Triple) : Bool := false

/-- The membership test node in cluster_items (line 676). -/
def pyNodeInItems (n : ℕ) (items : List Triple) : Bool :=
  items.any (pyStrEqTriple n)

/-- Dict lookup pmap[node] in a partial node map. -/
def nmLookup (pmap : NodeMap) (n : ℕ) : Option (List (ℕ × ℚ)) :=
  (pmap.find? (fun p => p.1 == n)).map Prod.snd

/-- The gather loop over the partial node maps for one cluster (lines
674-682 of add_items_concurrent).  When the (never true) membership guard
held, the body would look pmap[node] up (KeyError when absent), gather the
embeddings of its items from the source, and run the comprehension
for i, idx, dist in enumerate(pmap[node]), which unpacks the 2-tuples
produced by enumerate into three names: a ValueError on any nonempty entry
list.  embSource models random-access rows of the embeddings dataset. -/
def gatherLoop (embSource : ℕ → Vec) (n : ℕ) : List NodeMap → List Triple → M (List Triple)
  | [], cluster_items => pure cluster_items
  | pmap :: rest, cluster_items =>
    if pyNodeInItems n cluster_items then do
      let entries ← liftOpt (nmLookup pmap n) PyErr.keyError
      match entries with
      | [] => gatherLoop embSource n rest cluster_items
      | _ :: _ =>
        let _embs := (entries.map Prod.fst).map embSource
        Except.error PyErr.valueError
    else gatherLoop embSource n rest cluster_items

/-- All entries gathered for cluster node_n from every partial map
(cluster_items starts empty, line 674). -/
def gather_cluster_items (embSource : ℕ → Vec) (pmaps : List NodeMap) (n : ℕ) : M (List Triple) :=
  gatherLoop embSource n pmaps []

/-- One slice of the merge phase: the dict {node_n : gathered items} for n
in [start, stop) (lines 671-683). -/
def assemble_slice (embSource : ℕ → Vec) (pmaps : List NodeMap) (start stop : ℕ) :
    M (List (ℕ × List Triple)) :=
  ((List.range (stop - start)).map (fun i => start + i)).mapM (fun n => do
    let cluster_items ← gather_cluster_items embSource pmaps n
    pure (n, cluster_items))

/-- Append one assembled triple into a leaf node (lines 508-543 of
write_cluster_items_to_file): grow by node_size rows when full (using the
shape of the representative embeddings), write the embedding and distance
into slot next, append the item id, and update the border inline exactly
as during construction. -/
def appendTripleToLeaf (b : Builder) (lvl n : ℕ) (t : Triple) : M Builder := do
  let idx ← liftOpt b.index PyErr.attributeError
  let node ← liftOpt (getNode idx lvl n) PyErr.keyError
  let next := node.item_ids.length
  let node ←
    if next ≥ node.embeddings.length then do
      let ns ← liftOpt b.node_size PyErr.attributeError
      let rembs ← liftOpt b.representative_embeddings PyErr.attributeError
      let dim := ((rembs.head?).map List.length).getD 0
      pure { node with
        embeddings := node.embeddings ++ List.replicate ns (List.replicate dim (0 : ℚ)),
        distances := node.distances ++ List.replicate ns (0 : ℚ) }
    else pure node
  let (item, dist, emb) := t
  let node := { node with
    embeddings := node.embeddings.set next emb,
    item_ids := node.item_ids ++ [item],
    distances := node.distances.set next dist }
  let node :=
    match b.metric with
    | Metric.IP | Metric.cos =>
      if node.border.2 > dist then { node with border := ((next : ℤ), dist) } else node
    | Metric.L2 =>
      if node.border.2 < dist then { node with border := ((next : ℤ), dist) } else node
  pure { b with index := some (setNode idx lvl n node) }

/-- Model of ECPBuilder.write_cluster_items_to_file (lines 504-544): per
cluster of the handed batch, append every triple into the last-level node
and then resize that node with align_specific_node.  The HDF5 flush that
follows (lines 546-623) creates or extends persistent datasets only and
mutates no in-memory state, so it is omitted. -/
def write_cluster_items_to_file (b : Builder) (clusters : List (ℕ × List Triple)) : M Builder :=
  let lvl := b.levels - 1
  clusters.foldlM (fun b kv => do
    let b ← kv.2.foldlM (fun b t => appendTripleToLeaf b lvl kv.1 t) b
    align_specific_node b lvl kv.1) b

/-- A fold that keeps the builder state reached before a failing step, the
way python keeps attribute mutations made before an exception. -/
def foldSt (f : Builder → α → M Builder) : List α → Builder → Builder × Option PyErr
  | [], b => (b, none)
  | x :: xs, b =>
    match f b x with
    | Except.ok b' => foldSt f xs b'
    | Except.error e => (b, some e)

/-- Model of the single-threaded merge phase of add_items_concurrent
(lines 664-686): slice the clusters into batches of total_clusters / 20
(int division; a zero step makes range raise ValueError), assemble each
slice from the partial node maps, and hand it to
write_cluster_items_to_file.  The pool map phase that produces the partial
node maps runs in worker processes (an external collaborator per the
spec), so the maps are taken as input here. -/
def add_items_concurrent_merge_phase (b : Builder) (embSource : ℕ → Vec)
    (pmaps : List NodeMap) : Builder × Option PyErr :=
  match b.total_clusters with
  | none => (b, some PyErr.attributeError)
  | some tc =>
    let step := tc / 20
    if step = 0 then (b, some PyErr.valueError)
    else
      let starts := (List.range ((tc + step - 1) / step)).map (fun i => i * step)
      foldSt (fun b start => do
          let stop := min (start + step) tc
          let clusters ← assemble_slice embSource pmaps start stop
          write_cluster_items_to_file b clusters)
        starts b

/-- Number of worker processes used by add_items_concurrent (lines
642-645): the requested count is replaced by cpu_count() - 1 only when it
strictly exceeds cpu_count().  The function is total, so no worker count
raises. -/
def add_items_concurrent_processes (workers cpu_count : ℕ) : ℕ :=
  if workers > cpu_count then cpu_count - 1 else workers

/-- Total number of items currently held by the leaf-level nodes. -/
def leafItemsTotal (b : Builder) : ℕ :=
  match b.index with
  | none => 0
  | some idx => ((idx.lvls.getD (b.levels - 1) []).map (fun nd => nd.item_ids.length)).sum

/-- Ceiling division: math.ceil(total_items / target_cluster_size) of line
63, computed exactly (the source rounds a float quotient; the claims use
the exact value). -/
def ceilDiv (a b : ℕ) : ℕ := (a + b - 1) / b

/-- The least m with tc ≤ m ^ L: math.ceil(tc ** (1.0 / levels)) of line
64, computed exactly (float rounding of the real root is abstracted). -/
def ceilRoot (tc L : ℕ) : ℕ :=
  (((List.range (tc + 2)).find? (fun m => decide (tc ≤ m ^ L))).getD 0)

/-- Model of ECPBuilder.select_cluster_representatives (lines 36-113).
total_clusters and node_size are assigned onto the builder before the
option dispatch, so they survive every failure branch.  The python
if/elif chain on the option string is kept literally.  randomChoice models
np.random.choice(total_items, size, replace=False), an external source of
randomness; embSource models row access to the embeddings dataset.  The
offset stride all_item_ids[::target_cluster_size] is the set of indices
divisible by the stride, in order.  Logging and the save_to_file
persistence block are external and omitted.  The returned pair carries the
post-call builder (python mutates self in place) and either the
(embeddings, ids) result or the raised error. -/
def select_cluster_representatives (b : Builder) (total_items : ℕ) (option : String)
    (randomChoice : ℕ → ℕ → List ℕ) (embSource : ℕ → Vec) :
    Builder × Except PyErr (List Vec × List ℕ) :=
  if b.target_cluster_size = 0 then (b, Except.error PyErr.zeroDivisionError)
  else
    let tc := ceilDiv total_items b.target_cluster_size
    let b1 := { b with total_clusters := some tc }
    if b.levels = 0 then (b1, Except.error PyErr.zeroDivisionError)
    else
      let ns := ceilRoot tc b.levels
      let b2 := { b1 with node_size := some ns }
      if option = "offset" then
        let ids := (List.range total_items).filter (fun i => i % b.target_cluster_size = 0)
        let embs := ids.map embSource
        let b3 := { b2 with representative_ids := some ids, representative_embeddings := some embs }
        (b3, Except.ok (embs, ids))
      else if option = "random" then
        let ids := randomChoice total_items tc
        let embs := ids.map embSource
        let b3 := { b2 with representative_ids := some ids, representative_embeddings := some embs }
        (b3, Except.ok (embs, ids))
      else if option = "dissimilar" then
        (b2, Except.error PyErr.notImplementedError)
      else
        (b2, Except.error PyErr.valueError)

/-- Lexicographic order of the frontier tuples (distance, is_leaf, level,
node), matching python tuple comparison with False < True. -/
def teLE (a b : TreeEntry) : Bool :=
  if a.1 < b.1 then true
  else if b.1 < a.1 then false
  else if a.2.1 = false ∧ b.2.1 = true then true
  else if a.2.1 = true ∧ b.2.1 = false then false
  else if a.2.2.1 < b.2.2.1 then true
  else if b.2.2.1 < a.2.2.1 then false
  else a.2.2.2 ≤ b.2.2.2

/-- Lexicographic order of the result tuples (distance, item_id). -/
def ieLE (a b : ItemEntry) : Bool :=
  if a.1 < b.1 then true
  else if b.1 < a.1 then false
  else a.2 ≤ b.2

/-- PriorityQueue.get: remove and return a least element (python pops the
smallest tuple). -/
def pqGet (le : α → α → Bool) : List α → Option (α × List α)
  | [] => none
  | x :: xs =>
    match pqGet le xs with
    | none => some (x, [])
    | some (m, rest) => if le x m then some (x, xs) else some (m, x :: rest)

/-- The local state of one search_tree call: the explored-leaf counter,
the two queues, and the three function locals lvl, node and radius.  The
locals start every call unassigned (none); python raises
UnboundLocalError when one is read before the leaf branch assigned it.
item_pq stays optional because the attribute need not exist when
restart is false. -/
structure SearchState where
  leaf_cnt : ℕ
  tree_pq : List TreeEntry
  item_pq : Option (List ItemEntry)
  lvl : Option ℕ
  node : Option ℕ
  radius : Option ℚ

/-- The while loop of search_tree (lines 711-740).  Loop condition:
continue while leaf_cnt differs from search_exp and the frontier is
nonempty.  The popped tuple is (dist, is_leaf, l, n).

Leaf branch (lines 713-723): set the locals lvl, node and radius from the
popped node, rank the items of that leaf, push every (distance, item_id)
pair onto the result queue, and count the leaf.

Internal branch (lines 724-740): the source ranks
distance_level_node(query, lvl, node) and reads radius in the adjusted
score, but lvl, node and radius are assigned nowhere in this branch: the
values read are the leftovers of the most recent leaf expansion, and when
no leaf branch has run yet the read raises UnboundLocalError.  The pushes
use the node_ids of that stale node, the adjusted score subtracts radius
for L2 and adds it otherwise, and the pushed entry is flagged a leaf
exactly when l+1 is the last level. -/
def searchLoop (b : Builder) (query : Vec) (search_exp : ℕ) :
    ℕ → SearchState → M SearchState
  | 0, s =>
    if s.leaf_cnt = search_exp ∨ s.tree_pq = [] then pure s
    else Except.error PyErr.outOfFuel
  | fuel + 1, s =>
    if s.leaf_cnt = search_exp ∨ s.tree_pq = [] then pure s
    else
      match pqGet teLE s.tree_pq with
      | none => pure s
      | some ((_d, is_leaf, l, n), rest) =>
        if is_leaf then do
          let idx ← liftOpt b.index PyErr.attributeError
          let node ← liftOpt (getNode idx l n) PyErr.keyError
          let radius := node.border.2
          let (top, dists) ← unpackRet (distance_level_node b query l n)
          let ipq0 ← liftOpt s.item_pq PyErr.attributeError
          let ipq ← top.foldlM (fun q t => do
              let dv ← liftOpt (dists.get? t) PyErr.indexError
              let iid ← liftOpt (node.item_ids.get? t) PyErr.indexError
              pure (q ++ [(dv, iid)])) ipq0
          searchLoop b query search_exp fuel
            { s with tree_pq := rest, item_pq := some ipq, leaf_cnt := s.leaf_cnt + 1,
                     lvl := some l, node := some n, radius := some radius }
        else
          match s.lvl, s.node with
          | some lvls, some nodes => do
            let (top, dists) ← unpackRet (distance_level_node b query lvls nodes)
            let idx ← liftOpt b.index PyErr.attributeError
            let stale ← liftOpt (getNode idx lvls nodes) PyErr.keyError
            let tpq ← top.foldlM (fun q t => do
                let dv ← liftOpt (dists.get? t) PyErr.indexError
                let rad ← liftOpt s.radius PyErr.unboundLocalError
                let dist := if b.metric = Metric.L2 then dv - rad else dv + rad
                let nid ← liftOpt (stale.node_ids.get? t) PyErr.indexError
                pure (q ++ [(dist, decide (l + 1 = b.levels - 1), l + 1, nid)])) rest
            searchLoop b query search_exp fuel { s with tree_pq := tpq }
          | _, _ => Except.error PyErr.unboundLocalError

/-- The final drain (line 742): for k rounds, pop the smallest result
entry whenever the queue is nonempty (the condition of the comprehension
is re-checked before every pop, so an exhausted queue skips the remaining
rounds). -/
def drainLoop : ℕ → List ItemEntry → List ItemEntry × List ItemEntry
  | 0, q => ([], q)
  | k + 1, q =>
    match pqGet ieLE q with
    | none => ([], q)
    | some (m, rest) =>
      let (items, q') := drainLoop k rest
      (m :: items, q')

/-- Model of ECPBuilder.search_tree (lines 688-742): clear both queues when
restart is true, rank the root and push every root child as an internal
frontier entry at level 0, run the expansion loop, and drain up to k
result entries.  The fuel bounds the loop recursion (header note).  The
returned builder carries the mutated queues, as the source mutates them on
self. -/
def search_tree (b : Builder) (query : Vec) (search_exp k : ℕ) (restart : Bool)
    (fuel : ℕ) : M (List ItemEntry × Builder) := do
  let b := if restart then { b with tree_pq := some [], item_pq := some [] } else b
  let (top, distances) ← unpackRet (distance_root_node b query)
  let tpq0 ← liftOpt b.tree_pq PyErr.attributeError
  let tpq1 ← top.foldlM (fun q t => do
      let d ← liftOpt (distances.get? t) PyErr.indexError
      pure (q ++ [(d, false, 0, t)])) tpq0
  let s0 : SearchState :=
    { leaf_cnt := 0, tree_pq := tpq1, item_pq := b.item_pq,
      lvl := none, node := none, radius := none }
  let s1 ← searchLoop b query search_exp fuel s0
  match k, s1.item_pq with
  | 0, ip => pure ([], { b with tree_pq := some s1.tree_pq, item_pq := ip })
  | _ + 1, none => Except.error PyErr.attributeError
  | _ + 1, some q =>
    let (items, q') := drainLoop k q
    pure (items, { b with tree_pq := some s1.tree_pq, item_pq := some q' })

/-- A builder around a given index, with metric m: levels=2,
target_cluster_size=100, two representatives, total_clusters=2 and
node_size=2 (the values a tiny two-level build would produce). -/
def mkBuilder (m : Metric) (idx : Index) : Builder :=
  { levels := 2, target_cluster_size := 100, metric := m, cos_sim := fun _ _ => 0,
    representative_ids := some [0, 1], representative_embeddings := some [[1, 0], [0, 1]],
    total_clusters := some 2, node_size := some 2, index := some idx,
    tree_pq := none, item_pq := none }

/-- A two-level index whose lvl_0 node_0 holds the reference embeddings
[[1,0],[0,1]]; used to query distance_level_node. -/
def demoLevelIndex : Index :=
  { root := { item_ids := [0, 1], embeddings := [[1, 0], [0, 1]] },
    lvls := [[{ embeddings := [[1, 0], [0, 1]], item_ids := [0, 1], node_ids := [0, 1],
                distances := [1, 0], border := (0, 1) }]] }

/-- An index whose lvl_0 node_0 carries the given populated distances;
used to exercise the border recomputation. -/
def demoBorderIndex (ds : List ℚ) : Index :=
  { root := { item_ids := [], embeddings := [] },
    lvls := [[{ embeddings := [[1], [2], [3]], item_ids := [10, 11, 12], node_ids := [],
                distances := ds, border := (-1, 1) }]] }

/-- An empty leaf cluster as allocated for a 2-dimensional dataset with
node_size 5. -/
def demoLeaf : Node :=
  { embeddings := List.replicate 5 [0, 0], item_ids := [], node_ids := [],
    distances := List.replicate 5 0, border := (-1, 1) }

/-- A builder after a build with total_clusters=20 and node_size=5, whose
leaf level lvl_1 holds 20 empty clusters, ready for the concurrent merge
phase. -/
def demoMergeBuilder : Builder :=
  { levels := 2, target_cluster_size := 100, metric := Metric.L2, cos_sim := fun _ _ => 0,
    representative_ids := some [0], representative_embeddings := some [[0, 0]],
    total_clusters := some 20, node_size := some 5,
    index := some { root := { item_ids := [0], embeddings := [[0, 0]] },
                    lvls := [[], List.replicate 20 demoLeaf] },
    tree_pq := none, item_pq := none }

/-- The partial node map a worker produces for a one-item dataset: item 0
was assigned to cluster node_0 at distance 1. -/
def demoPartialMap : NodeMap := [(0, [(0, 1)])]

/-- A one-item embedding source for the merge demo. -/
def demoEmbSource : ℕ → Vec := fun _ => [0, 0]

/-- A fully populated two-level IP index: root with two children, lvl_0
with two internal nodes pointing at the two leaf clusters of lvl_1. -/
def demoSearchIndex : Index :=
  { root := { item_ids := [0, 1], embeddings := [[1, 0], [0, 1]] },
    lvls :=
      [[{ embeddings := [[1, 0]], item_ids := [0], node_ids := [0],
          distances := [1], border := (0, 1) },
        { embeddings := [[0, 1]], item_ids := [1], node_ids := [1],
          distances := [1], border := (0, 1) }],
       [{ embeddings := [[1, 0]], item_ids := [100], node_ids := [],
          distances := [0], border := (0, 0) },
        { embeddings := [[0, 1]], item_ids := [101], node_ids := [],
          distances := [0], border := (0, 0) }]] }

/-- The builder owning demoSearchIndex, metric IP. -/
def demoSearchBuilder : Builder :=
  { levels := 2, target_cluster_size := 1, metric := Metric.IP, cos_sim := fun _ _ => 0,
    representative_ids := some [0, 1], representative_embeddings := some [[1, 0], [0, 1]],
    total_clusters := some 2, node_size := some 2, index := some demoSearchIndex,
    tree_pq := none, item_pq := none }

/-- A freshly constructed builder: no representatives selected, no derived
parameters, no index, no search queues. -/
def demoFreshBuilder : Builder :=
  { levels := 2, target_cluster_size := 100, metric := Metric.cos, cos_sim := fun _ _ => 0,
    representative_ids := none, representative_embeddings := none, total_clusters := none,
    node_size := none, index := none, tree_pq := none, item_pq := none }

theorem gatherLoop_empty (es : ℕ → Vec) (n : ℕ) :
    ∀ pmaps : List NodeMap, gatherLoop es n pmaps [] = Except.ok []
  | [] => rfl
  | _ :: rest => gatherLoop_empty es n rest

/-- C1: refuted as stated.  distance_root_node does return the
(ordering, scores) pair for all three metrics, but distance_level_node
does not: its only return statement sits inside the cos branch, so for IP
it computes the scores and then returns None, and for L2 it reduces the
difference matrix to a scalar (np.linalg.norm without axis) and raises
when argsorting it.  Evaluated here on a node holding [[1,0],[0,1]] with
query [1,0]. -/
theorem c1_distance_level_node_broken :
    distance_level_node (mkBuilder Metric.IP demoLevelIndex) [1, 0] 0 0 = Ret.noneRet ∧
    distance_level_node (mkBuilder Metric.L2 demoLevelIndex) [1, 0] 0 0 =
      Ret.exn PyErr.axisError :=
  ⟨rfl, rfl⟩

/-- C2: refuted as stated.  update_node_border_info argsorts the sorted
copy of the distances, which is the identity permutation, so the stored
border is always position 0 of the raw array for IP (here (0, 3.0) on
[3,1,4], not the claimed (1, 1.0)) and always the last position for L2
(here (2, 3.0) on [4,1,3], although the maximum 4.0 sits at position 0).
The L2 scenario [3,1,4] of the claim happens to match only because its
maximum sits in the last slot. -/
theorem c2_border_recompute_broken :
    Except.map (fun b => borderAt b 0 0)
      (update_node_border_info (mkBuilder Metric.IP (demoBorderIndex [3, 1, 4])) 0 0) =
      Except.ok (some ((0 : ℤ), (3 : ℚ))) ∧
    ((0 : ℤ), (3 : ℚ)) ≠ ((1 : ℤ), (1 : ℚ)) ∧
    Except.map (fun b => borderAt b 0 0)
      (update_node_border_info (mkBuilder Metric.L2 (demoBorderIndex [4, 1, 3])) 0 0) =
      Except.ok (some ((2 : ℤ), (3 : ℚ))) ∧
    Except.map (fun b => borderAt b 0 0)
      (update_node_border_info (mkBuilder Metric.L2 (demoBorderIndex [3, 1, 4])) 0 0) =
      Except.ok (some ((2 : ℤ), (4 : ℚ))) :=
  ⟨rfl, by decide, rfl, rfl⟩

/-- C3: refuted as stated.  The merge phase tests node in cluster_items —
the name string against the list of gathered triples — which is always
false, so every cluster of every slice is assembled empty: gathering
returns the empty list for all partial maps and all clusters, and running
the whole merge phase of add_items_concurrent on a one-item dataset
(20 clusters, one worker map assigning item 0 to node_0) completes without
error yet stores zero items in the leaf level instead of one. -/
theorem c3_merge_gathers_nothing :
    (∀ (es : ℕ → Vec) (pmaps : List NodeMap) (n : ℕ),
        gather_cluster_items es pmaps n = Except.ok []) ∧
    (add_items_concurrent_merge_phase demoMergeBuilder demoEmbSource [demoPartialMap]).2 =
      none ∧
    leafItemsTotal
      (add_items_concurrent_merge_phase demoMergeBuilder demoEmbSource [demoPartialMap]).1 = 0 :=
  ⟨fun es pmaps n => gatherLoop_empty es n pmaps, rfl, rfl⟩

/-- C4: refuted as stated.  The internal-expansion branch of search_tree
reads the locals lvl, node and radius, which are assigned only in the leaf
branch; the first popped frontier candidate is internal (everything pushed
from the root is flagged internal), so the expansion raises
UnboundLocalError and no child is ever pushed with an adjusted score.
Evaluated on a populated two-level IP index. -/
theorem c4_internal_expansion_crashes :
    search_tree demoSearchBuilder [1, 0] 1 1 true 8 =
      Except.error PyErr.unboundLocalError := by
  with_unfolding_all rfl

/-- C5: refuted as stated.  With any leaf budget B of at least 1 the
expansion loop raises UnboundLocalError on its first iteration, expanding
zero leaves instead of min(B, reachable leaves) — here the index has two
reachable leaves and B = 3.  Only B = 0 returns normally, trivially
expanding zero leaves and draining nothing. -/
theorem c5_budget_not_respected :
    search_tree demoSearchBuilder [1, 0] 3 2 true 8 =
      Except.error PyErr.unboundLocalError ∧
    Except.map Prod.fst (search_tree demoSearchBuilder [1, 0] 0 2 true 8) =
      Except.ok [] := by
  exact ⟨by with_unfolding_all rfl, by with_unfolding_all rfl⟩

/-- C6: refuted as stated.  For any positive leaf budget the call raises
before the drain is reached, so no ranked list of (distance, item_id)
pairs is returned at all; here budget 2, k 3 on the two-leaf IP index. -/
theorem c6_no_result_list :
    search_tree demoSearchBuilder [0, 1] 2 3 true 8 =
      Except.error PyErr.unboundLocalError := by
  with_unfolding_all rfl

/-- C7 counterexample: requesting exactly cpu_count() workers is not
clamped: with 4 CPUs and workers = 4 the pool gets 4 processes, which
exceeds cpu_count() - 1 = 3. -/
theorem c7_clamp_counterexample :
    add_items_concurrent_processes 4 4 = 4 ∧
    ¬ add_items_concurrent_processes 4 4 ≤ 4 - 1 := by
  decide

/-- C7 amended: whenever the request does not exceed cpu_count() it is
used unchanged — so it may equal cpu_count() —, and only a request
strictly exceeding cpu_count() is clamped, to cpu_count() - 1; the bound
that holds in all cases is therefore cpu_count(), not cpu_count() - 1.
The clamp itself never raises (it is a total function). -/
theorem c7_clamp_amended (w c : ℕ) :
    add_items_concurrent_processes w c ≤ c ∧
    (w ≤ c → add_items_concurrent_processes w c = w) ∧
    (c < w → add_items_concurrent_processes w c = c - 1) := by
  refine ⟨?_, ?_, ?_⟩ <;> unfold add_items_concurrent_processes
  · split <;> omega
  · intro h
    rw [if_neg (by omega)]
  · intro h
    rw [if_pos h]

theorem c7_clamp_amended_witness :
    add_items_concurrent_processes 3 4 = 3 ∧
    add_items_concurrent_processes 4 4 = 4 ∧
    add_items_concurrent_processes 9 4 = 3 ∧
    add_items_concurrent_processes 9 4 ≤ 4 :=
  ⟨(c7_clamp_amended 3 4).2.1 (by decide),
   (c7_clamp_amended 4 4).2.1 (by decide),
   (c7_clamp_amended 9 4).2.2 (by decide),
   (c7_clamp_amended 9 4).1⟩

/-- C8: confirmed.  For every builder whose division parameters are sane
(nonzero target cluster size and level count, otherwise python dies
earlier with ZeroDivisionError), selecting with option dissimilar raises
NotImplementedError for every metric, any option outside offset, random
and dissimilar raises ValueError, and in both cases no representatives
are produced: the representative fields of the builder are exactly as
before the call. -/
theorem c8_select_errors (b : Builder) (N : ℕ) (rc : ℕ → ℕ → List ℕ) (es : ℕ → Vec)
    (opt : String) (htcs : b.target_cluster_size ≠ 0) (hlv : b.levels ≠ 0)
    (h1 : opt ≠ "offset") (h2 : opt ≠ "random") (h3 : opt ≠ "dissimilar") :
    (select_cluster_representatives b N "dissimilar" rc es).2 =
      Except.error PyErr.notImplementedError ∧
    (select_cluster_representatives b N "dissimilar" rc es).1.representative_ids =
      b.representative_ids ∧
    (select_cluster_representatives b N "dissimilar" rc es).1.representative_embeddings =
      b.representative_embeddings ∧
    (select_cluster_representatives b N opt rc es).2 = Except.error PyErr.valueError ∧
    (select_cluster_representatives b N opt rc es).1.representative_ids =
      b.representative_ids ∧
    (select_cluster_representatives b N opt rc es).1.representative_embeddings =
      b.representative_embeddings := by
  refine ⟨?_, ?_, ?_, ?_, ?_, ?_⟩ <;>
    simp [select_cluster_representatives, htcs, hlv, h1, h2, h3]

theorem c8_select_errors_witness :
    (select_cluster_representatives demoFreshBuilder 1000 "dissimilar"
        (fun _ _ => []) (fun _ => [])).2 = Except.error PyErr.notImplementedError ∧
    (select_cluster_representatives demoFreshBuilder 1000 "dissimilar"
        (fun _ _ => []) (fun _ => [])).1.representative_ids = none ∧
    (select_cluster_representatives demoFreshBuilder 1000 "dissimilar"
        (fun _ _ => []) (fun _ => [])).1.representative_embeddings = none ∧
    (select_cluster_representatives demoFreshBuilder 1000 "bogus"
        (fun _ _ => []) (fun _ => [])).2 = Except.error PyErr.valueError ∧
    (select_cluster_representatives demoFreshBuilder 1000 "bogus"
        (fun _ _ => []) (fun _ => [])).1.representative_ids = none ∧
    (select_cluster_representatives demoFreshBuilder 1000 "bogus"
        (fun _ _ => []) (fun _ => [])).1.representative_embeddings = none :=
  c8_select_errors demoFreshBuilder 1000 (fun _ _ => []) (fun _ => []) "bogus"
    (by decide) (by decide) (by decide) (by decide) (by decide)

/-- C9: confirmed.  When the representative embeddings or ids are still
None, build_tree_h5 raises ValueError (the PreconditionNotMet condition of
the spec) as its very first statement: the builder is returned exactly as
it was, in particular no index is constructed. -/
theorem c9_build_requires_representatives (b : Builder)
    (h : b.representative_embeddings = none ∨ b.representative_ids = none) :
    build_tree_h5 b = (b, some PyErr.valueError) := by
  rcases h with h | h <;> simp [build_tree_h5, h]

theorem c9_build_requires_representatives_witness :
    build_tree_h5 demoFreshBuilder = (demoFreshBuilder, some PyErr.valueError) :=
  c9_build_requires_representatives demoFreshBuilder (Or.inl rfl)

/-- C10: confirmed.  Failure of select_cluster_representatives is not
atomic: on both failing branches (dissimilar, or an unknown option) the
derived parameters have already been written onto the builder —
total_clusters as the ceiling of total_items over target_cluster_size and
node_size as the ceiling of the levels-th root of total_clusters — and
they remain set while the error propagates. -/
theorem c10_params_set_before_failure (b : Builder) (N : ℕ) (rc : ℕ → ℕ → List ℕ)
    (es : ℕ → Vec) (opt : String) (htcs : b.target_cluster_size ≠ 0) (hlv : b.levels ≠ 0)
    (hopt : opt = "dissimilar" ∨ (opt ≠ "offset" ∧ opt ≠ "random" ∧ opt ≠ "dissimilar")) :
    (select_cluster_representatives b N opt rc es).1.total_clusters =
      some (ceilDiv N b.target_cluster_size) ∧
    (select_cluster_representatives b N opt rc es).1.node_size =
      some (ceilRoot (ceilDiv N b.target_cluster_size) b.levels) ∧
    ((select_cluster_representatives b N opt rc es).2 =
        Except.error PyErr.notImplementedError ∨
      (select_cluster_representatives b N opt rc es).2 = Except.error PyErr.valueError) := by
  rcases hopt with h | ⟨h1, h2, h3⟩
  · subst h
    refine ⟨?_, ?_, Or.inl ?_⟩ <;> simp [select_cluster_representatives, htcs, hlv]
  · refine ⟨?_, ?_, Or.inr ?_⟩ <;>
      simp [select_cluster_representatives, htcs, hlv, h1, h2, h3]

theorem c10_params_set_before_failure_witness :
    (select_cluster_representatives demoFreshBuilder 1000 "dissimilar"
        (fun _ _ => []) (fun _ => [])).1.total_clusters = some 10 ∧
    (select_cluster_representatives demoFreshBuilder 1000 "dissimilar"
        (fun _ _ => []) (fun _ => [])).1.node_size = some 4 ∧
    ((select_cluster_representatives demoFreshBuilder 1000 "dissimilar"
          (fun _ _ => []) (fun _ => [])).2 = Except.error PyErr.notImplementedError ∨
      (select_cluster_representatives demoFreshBuilder 1000 "dissimilar"
          (fun _ _ => []) (fun _ => [])).2 = Except.error PyErr.valueError) :=
  c10_params_set_before_failure demoFreshBuilder 1000 (fun _ _ => []) (fun _ => [])
    "dissimilar" (by decide) (by decide) (Or.inl rfl)

end ECP
